import Mathlib

/-!
Shallow embedding of the `stackerror` Rust crate, for checking its
specification.

Embedded source files:
- `src/codes.rs`: the `ErrorCode` enumeration and its partial conversions
  to and from HTTP status values and `std::io::ErrorKind` values.
- `src/error.rs`: the `StackError` chain type, the `ErrorStacks<C>` trait,
  its implementation for `StackError` and its lifting to `Result`, and the
  `Display` and `Debug` renderings.
- `src/from_std_io.rs`: the `From<std::io::Error>` adapter.
- `impl/src/lib.rs`: the `derive_stack_error` wrapper code generator.

The type-erased message payload (`Box<dyn Display + Send + Sync>`) is
modelled by the `String` it renders to: the only operation the code ever
performs on a message is formatting it with `Display`.
-/

namespace Stackerror

/-- Error handling codes, from `src/codes.rs` (enum `ErrorCode`). -/
inductive ErrorCode where
  | RuntimeInvalidValue
  | RuntimeInvalidIndex
  | RuntimeInvalidKey
  | RuntimeNotImplemented
  -- HTTP 4xx
  | HttpBadRequest
  | HttpUnauthorized
  | HttpPaymentRequired
  | HttpForbidden
  | HttpNotFound
  | HttpMethodNotAllowed
  | HttpNotAcceptable
  | HttpProxyAuthenticationRequired
  | HttpRequestTimeout
  | HttpConflict
  | HttpGone
  | HttpLengthRequired
  | HttpPreconditionFailed
  | HttpPayloadTooLarge
  | HttpUriTooLong
  | HttpUnsupportedMediaType
  | HttpRangeNotSatisfiable
  | HttpExpectationFailed
  | HttpImATeapot
  | HttpMisdirectedRequest
  | HttpUnprocessableEntity
  | HttpLocked
  | HttpFailedDependency
  | HttpTooEarly
  | HttpUpgradeRequired
  | HttpPreconditionRequired
  | HttpTooManyRequests
  | HttpRequestHeaderFieldsTooLarge
  | HttpUnavailableForLegalReasons
  -- HTTP 5xx
  | HttpInternalServerError
  | HttpNotImplemented
  | HttpBadGateway
  | HttpServiceUnavailable
  | HttpGatewayTimeout
  | HttpHttpVersionNotSupported
  | HttpVariantAlsoNegotiates
  | HttpInsufficientStorage
  | HttpLoopDetected
  | HttpNotExtended
  | HttpNetworkAuthenticationRequired
  -- IO
  | IoNotFound
  | IoPermissionDenied
  | IoConnectionRefused
  | IoConnectionReset
  | IoConnectionAborted
  | IoNotConnected
  | IoAddrInUse
  | IoAddrNotAvailable
  | IoBrokenPipe
  | IoAlreadyExists
  | IoWouldBlock
  | IoInvalidInput
  | IoInvalidData
  | IoTimedOut
  | IoWriteZero
  | IoInterrupted
  | IoUnsupported
  | IoUnexpectedEof
  | IoOutOfMemory
  | IoOther
  deriving DecidableEq, Repr, Fintype

/-- Construct from an HTTP error code value
(`ErrorCode::from_http_value`, `src/codes.rs`). HTTP status values are
`u16` in the source; every arm of the match is below 512 so the `Nat`
embedding is exact. -/
def ErrorCode.from_http_value (value : Nat) : Option ErrorCode :=
  match value with
  -- 4xx
  | 400 => some .HttpBadRequest
  | 401 => some .HttpUnauthorized
  | 402 => some .HttpPaymentRequired
  | 403 => some .HttpForbidden
  | 404 => some .HttpNotFound
  | 405 => some .HttpMethodNotAllowed
  | 406 => some .HttpNotAcceptable
  | 407 => some .HttpProxyAuthenticationRequired
  | 408 => some .HttpRequestTimeout
  | 409 => some .HttpConflict
  | 410 => some .HttpGone
  | 411 => some .HttpLengthRequired
  | 412 => some .HttpPreconditionFailed
  | 413 => some .HttpPayloadTooLarge
  | 414 => some .HttpUriTooLong
  | 415 => some .HttpUnsupportedMediaType
  | 416 => some .HttpRangeNotSatisfiable
  | 417 => some .HttpExpectationFailed
  | 418 => some .HttpImATeapot
  | 421 => some .HttpMisdirectedRequest
  | 422 => some .HttpUnprocessableEntity
  | 423 => some .HttpLocked
  | 424 => some .HttpFailedDependency
  | 425 => some .HttpTooEarly
  | 426 => some .HttpUpgradeRequired
  | 428 => some .HttpPreconditionRequired
  | 429 => some .HttpTooManyRequests
  | 431 => some .HttpRequestHeaderFieldsTooLarge
  | 451 => some .HttpUnavailableForLegalReasons
  -- 5xx
  | 500 => some .HttpInternalServerError
  | 501 => some .HttpNotImplemented
  | 502 => some .HttpBadGateway
  | 503 => some .HttpServiceUnavailable
  | 504 => some .HttpGatewayTimeout
  | 505 => some .HttpHttpVersionNotSupported
  | 506 => some .HttpVariantAlsoNegotiates
  | 507 => some .HttpInsufficientStorage
  | 508 => some .HttpLoopDetected
  | 510 => some .HttpNotExtended
  | 511 => some .HttpNetworkAuthenticationRequired
  | _ => none

/-- Convert to the corresponding HTTP value, if any
(`ErrorCode::to_http_value`, `src/codes.rs`). -/
def ErrorCode.to_http_value (code : ErrorCode) : Option Nat :=
  match code with
  -- 4xx
  | .HttpBadRequest => some 400
  | .HttpUnauthorized => some 401
  | .HttpPaymentRequired => some 402
  | .HttpForbidden => some 403
  | .HttpNotFound => some 404
  | .HttpMethodNotAllowed => some 405
  | .HttpNotAcceptable => some 406
  | .HttpProxyAuthenticationRequired => some 407
  | .HttpRequestTimeout => some 408
  | .HttpConflict => some 409
  | .HttpGone => some 410
  | .HttpLengthRequired => some 411
  | .HttpPreconditionFailed => some 412
  | .HttpPayloadTooLarge => some 413
  | .HttpUriTooLong => some 414
  | .HttpUnsupportedMediaType => some 415
  | .HttpRangeNotSatisfiable => some 416
  | .HttpExpectationFailed => some 417
  | .HttpImATeapot => some 418
  | .HttpMisdirectedRequest => some 421
  | .HttpUnprocessableEntity => some 422
  | .HttpLocked => some 423
  | .HttpFailedDependency => some 424
  | .HttpTooEarly => some 425
  | .HttpUpgradeRequired => some 426
  | .HttpPreconditionRequired => some 428
  | .HttpTooManyRequests => some 429
  | .HttpRequestHeaderFieldsTooLarge => some 431
  | .HttpUnavailableForLegalReasons => some 451
  -- 5xx
  | .HttpInternalServerError => some 500
  | .HttpNotImplemented => some 501
  | .HttpBadGateway => some 502
  | .HttpServiceUnavailable => some 503
  | .HttpGatewayTimeout => some 504
  | .HttpHttpVersionNotSupported => some 505
  | .HttpVariantAlsoNegotiates => some 506
  | .HttpInsufficientStorage => some 507
  | .HttpLoopDetected => some 508
  | .HttpNotExtended => some 510
  | .HttpNetworkAuthenticationRequired => some 511
  | _ => none

/-- The HTTP status values that appear as arms of the
`from_http_value` match (the mapped table). -/
def mappedHttpValues : List Nat :=
  [400, 401, 402, 403, 404, 405, 406, 407, 408, 409, 410, 411, 412, 413,
   414, 415, 416, 417, 418, 421, 422, 423, 424, 425, 426, 428, 429, 431,
   451, 500, 501, 502, 503, 504, 505, 506, 507, 508, 510, 511]

/-- The `ErrorCode` variants that appear as arms of the `to_http_value`
match (the mapped HTTP subset of the enumeration). -/
def httpSubset : List ErrorCode :=
  [.HttpBadRequest, .HttpUnauthorized, .HttpPaymentRequired, .HttpForbidden,
   .HttpNotFound, .HttpMethodNotAllowed, .HttpNotAcceptable,
   .HttpProxyAuthenticationRequired, .HttpRequestTimeout, .HttpConflict,
   .HttpGone, .HttpLengthRequired, .HttpPreconditionFailed,
   .HttpPayloadTooLarge, .HttpUriTooLong, .HttpUnsupportedMediaType,
   .HttpRangeNotSatisfiable, .HttpExpectationFailed, .HttpImATeapot,
   .HttpMisdirectedRequest, .HttpUnprocessableEntity, .HttpLocked,
   .HttpFailedDependency, .HttpTooEarly, .HttpUpgradeRequired,
   .HttpPreconditionRequired, .HttpTooManyRequests,
   .HttpRequestHeaderFieldsTooLarge, .HttpUnavailableForLegalReasons,
   .HttpInternalServerError, .HttpNotImplemented, .HttpBadGateway,
   .HttpServiceUnavailable, .HttpGatewayTimeout,
   .HttpHttpVersionNotSupported, .HttpVariantAlsoNegotiates,
   .HttpInsufficientStorage, .HttpLoopDetected, .HttpNotExtended,
   .HttpNetworkAuthenticationRequired]

/-- Observable part of `std::io::ErrorKind` used by
`ErrorCode::from_io_kind` (`src/codes.rs`): the twenty kinds named in the
match, plus further variants of the non-exhaustive `ErrorKind` enumeration
that fall into the catch-all arm (represented here by `NotADirectory` and
`StorageFull`). -/
inductive IoErrorKind where
  | NotFound
  | PermissionDenied
  | ConnectionRefused
  | ConnectionReset
  | ConnectionAborted
  | NotConnected
  | AddrInUse
  | AddrNotAvailable
  | BrokenPipe
  | AlreadyExists
  | WouldBlock
  | InvalidInput
  | InvalidData
  | TimedOut
  | WriteZero
  | Interrupted
  | Unsupported
  | UnexpectedEof
  | OutOfMemory
  | Other
  | NotADirectory
  | StorageFull
  deriving DecidableEq, Repr

/-- Construct from an IO error kind
(`ErrorCode::from_io_kind`, `src/codes.rs`). -/
def ErrorCode.from_io_kind (kind : IoErrorKind) : Option ErrorCode :=
  match kind with
  | .NotFound => some .IoNotFound
  | .PermissionDenied => some .IoPermissionDenied
  | .ConnectionRefused => some .IoConnectionRefused
  | .ConnectionReset => some .IoConnectionReset
  | .ConnectionAborted => some .IoConnectionAborted
  | .NotConnected => some .IoNotConnected
  | .AddrInUse => some .IoAddrInUse
  | .AddrNotAvailable => some .IoAddrNotAvailable
  | .BrokenPipe => some .IoBrokenPipe
  | .AlreadyExists => some .IoAlreadyExists
  | .WouldBlock => some .IoWouldBlock
  | .InvalidInput => some .IoInvalidInput
  | .InvalidData => some .IoInvalidData
  | .TimedOut => some .IoTimedOut
  | .WriteZero => some .IoWriteZero
  | .Interrupted => some .IoInterrupted
  | .Unsupported => some .IoUnsupported
  | .UnexpectedEof => some .IoUnexpectedEof
  | .OutOfMemory => some .IoOutOfMemory
  | .Other => some .IoOther
  | _ => none

/-- The error-chain node (`struct StackError`, `src/error.rs`): an optional
message (the `Box<dyn Display>` payload modelled by its rendered text), an
optional owned source node, an optional code and an optional URI. -/
inductive StackError : Type where
  | mk (message : Option String) (source : Option StackError)
      (code : Option ErrorCode) (uri : Option String) : StackError

/-- Field accessor for `StackError.message`. -/
def StackError.message : StackError → Option String
  | .mk m _ _ _ => m

/-- Field accessor for `StackError.source`. -/
def StackError.source : StackError → Option StackError
  | .mk _ s _ _ => s

/-- Field accessor for `StackError.code`. -/
def StackError.code : StackError → Option ErrorCode
  | .mk _ _ c _ => c

/-- Field accessor for `StackError.uri`. -/
def StackError.uri : StackError → Option String
  | .mk _ _ _ u => u

/-- The empty error (`StackError::new`, which is `Default::default()`). -/
def StackError.new : StackError := .mk none none none none

/-- Build a root error from a message (`StackError::from_msg`). -/
def StackError.from_msg (m : String) : StackError := .mk (some m) none none none

/-- Accessor `err_code` (`impl ErrorStacks<ErrorCode> for StackError`):
reads `self.code` of the receiving node only. -/
def StackError.err_code (e : StackError) : Option ErrorCode := e.code

/-- Builder `with_err_code`: sets the code, all other fields kept. -/
def StackError.with_err_code (e : StackError) (c : ErrorCode) : StackError :=
  .mk e.message e.source (some c) e.uri

/-- Builder `with_no_err_code`: clears the code, all other fields kept. -/
def StackError.with_no_err_code (e : StackError) : StackError :=
  .mk e.message e.source none e.uri

/-- Accessor `err_uri`: reads `self.uri` of the receiving node only. -/
def StackError.err_uri (e : StackError) : Option String := e.uri

/-- Builder `with_err_uri`: sets the URI, all other fields kept. -/
def StackError.with_err_uri (e : StackError) (u : String) : StackError :=
  .mk e.message e.source e.code (some u)

/-- Builder `with_no_err_uri`: clears the URI, all other fields kept. -/
def StackError.with_no_err_uri (e : StackError) : StackError :=
  .mk e.message e.source e.code none

/-- Builder `with_err_msg`: replaces the message, all other fields kept. -/
def StackError.with_err_msg (e : StackError) (m : String) : StackError :=
  .mk (some m) e.source e.code e.uri

/-- Builder `with_no_err_msg`: clears the message, all other fields kept. -/
def StackError.with_no_err_msg (e : StackError) : StackError :=
  .mk none e.source e.code e.uri

/-- Operation `stack_err`: a new node with no message whose source is the
consumed receiver and whose code and URI are copied from it. -/
def StackError.stack_err (e : StackError) : StackError :=
  .mk none (some e) e.code e.uri

/-- Operation `stack_err_msg`: a new node with the given message whose
source is the consumed receiver and whose code and URI are copied from
it. -/
def StackError.stack_err_msg (e : StackError) (m : String) : StackError :=
  .mk (some m) (some e) e.code e.uri

/-- The `Display` implementation for `StackError` (`src/error.rs`): the
receiving node's message if set, otherwise nothing is written. -/
def StackError.displayFmt (e : StackError) : String :=
  match e.message with
  | some m => m
  | none => ""

/-- The node list walked by the `Debug` implementation
(`std::iter::successors(Some(self), |e| e.source.as_deref())`): the
receiving node first, then its sources back to the root. -/
def StackError.chainNodes : StackError → List StackError
  | .mk m none c u => [.mk m none c u]
  | .mk m (some s) c u => .mk m (some s) c u :: chainNodes s

/-- Joins per-node renderings the way the `Debug` loop does: a newline is
written before every element except the first. -/
def renderLines : List String → String
  | [] => ""
  | [s] => s
  | s :: rest => s ++ "\n" ++ renderLines rest

/-- The lines of the `Debug` rendering, oldest node first: the chain is
collected, reversed, and each node is rendered with its `Display`. -/
def StackError.debugLines (e : StackError) : List String :=
  (e.chainNodes.reverse).map StackError.displayFmt

/-- The `Debug` implementation for `StackError` (`src/error.rs`). -/
def StackError.debugFmt (e : StackError) : String :=
  renderLines e.debugLines

/-- Number of nodes in the chain. -/
def StackError.chainLen (e : StackError) : Nat := e.chainNodes.length

/-- Stack a list of messages onto an error, oldest first, with
`stack_err_msg`. -/
def StackError.stackMsgs (e : StackError) (msgs : List String) : StackError :=
  msgs.foldl StackError.stack_err_msg e

/-- Rust's `Result<T, E>` container with its two variants. -/
inductive SResult (T E : Type) where
  | ok (value : T)
  | err (error : E)

/-- Rust's `Result::map_err`: applies the function to the failure branch
only. -/
def SResult.map_err : SResult T E → (E → E) → SResult T E
  | .ok v, _ => .ok v
  | .err e, f => .err (f e)

/-- Rust's `Result::err` composed with `Option::and_then`, as used by the
accessor liftings (`self.as_ref().err().and_then(...)`). -/
def SResult.errAndThen : SResult T E → (E → Option β) → Option β
  | .ok _, _ => none
  | .err e, f => f e

/-- The method set of the `ErrorStacks<C>` trait (`src/error.rs`), bundled
as explicit functions so the generic `Result` lifting can be stated for an
arbitrary implementing error type `E`. -/
structure ErrorStacksOps (C E : Type) where
  err_code : E → Option C
  with_err_code : E → C → E
  with_no_err_code : E → E
  err_uri : E → Option String
  with_err_uri : E → String → E
  with_no_err_uri : E → E
  with_err_msg : E → String → E
  with_no_err_msg : E → E
  stack_err : E → E
  stack_err_msg : E → String → E

/-- The implementation of `ErrorStacks<C>` for `StackError`
(`src/error.rs`), as an operation bundle. -/
def stackErrorOps : ErrorStacksOps ErrorCode StackError where
  err_code := StackError.err_code
  with_err_code := StackError.with_err_code
  with_no_err_code := StackError.with_no_err_code
  err_uri := StackError.err_uri
  with_err_uri := StackError.with_err_uri
  with_no_err_uri := StackError.with_no_err_uri
  with_err_msg := StackError.with_err_msg
  with_no_err_msg := StackError.with_no_err_msg
  stack_err := StackError.stack_err
  stack_err_msg := StackError.stack_err_msg

/-- The `impl<T, E, C> ErrorStacks<C> for Result<T, E>` lifting
(`src/error.rs`, lines 35 to 79): accessors go through
`as_ref().err().and_then`, every builder and stacking operation goes
through `map_err`. -/
def resultOps (ops : ErrorStacksOps C E) : ErrorStacksOps C (SResult T E) where
  err_code r := r.errAndThen ops.err_code
  with_err_code r code := r.map_err (fun e => ops.with_err_code e code)
  with_no_err_code r := r.map_err ops.with_no_err_code
  err_uri r := r.errAndThen ops.err_uri
  with_err_uri r uri := r.map_err (fun e => ops.with_err_uri e uri)
  with_no_err_uri r := r.map_err ops.with_no_err_uri
  with_err_msg r m := r.map_err (fun e => ops.with_err_msg e m)
  with_no_err_msg r := r.map_err ops.with_no_err_msg
  stack_err r := r.map_err ops.stack_err
  stack_err_msg r m := r.map_err (fun e => ops.stack_err_msg e m)

/-- One state-changing operation of the `ErrorStacks<C>` trait, as data,
so a statement can quantify over all of them. -/
inductive StacksOp (C : Type) where
  | withErrCode (code : C)
  | withNoErrCode
  | withErrUri (uri : String)
  | withNoErrUri
  | withErrMsg (m : String)
  | withNoErrMsg
  | stackErr
  | stackErrMsg (m : String)

/-- Interpret a `StacksOp` with a given operation bundle. -/
def StacksOp.apply (ops : ErrorStacksOps C E) : StacksOp C → E → E
  | .withErrCode code, e => ops.with_err_code e code
  | .withNoErrCode, e => ops.with_no_err_code e
  | .withErrUri uri, e => ops.with_err_uri e uri
  | .withNoErrUri, e => ops.with_no_err_uri e
  | .withErrMsg m, e => ops.with_err_msg e m
  | .withNoErrMsg, e => ops.with_no_err_msg e
  | .stackErr, e => ops.stack_err e
  | .stackErrMsg m, e => ops.stack_err_msg e m

/-- The `From<std::io::Error>` boundary view of a platform I/O error: its
categorical kind and its `Display` text, the only two things the adapter
in `src/from_std_io.rs` reads from it. -/
structure IoError where
  kind : IoErrorKind
  msg : String

/-- The `impl From<std::io::Error> for StackError` adapter
(`src/from_std_io.rs`): wrap the error text as a root message, then attach
the code the kind maps to, if any. -/
def stackErrorFromIo (error : IoError) : StackError :=
  let kind := error.kind
  let err := StackError.from_msg error.msg
  match ErrorCode.from_io_kind kind with
  | some code => err.with_err_code code
  | none => err

/-- The input shape `derive_stack_error` (`impl/src/lib.rs`) inspects: a
struct with a list of field types (each field type named by a string), or
a non-struct item (enum or union). -/
inductive DeriveData where
  | structData (fields : List String)
  | nonStructData

/-- The field-inspection logic of `derive_stack_error`
(`impl/src/lib.rs`, lines 9 to 17): take the first field's type if there
is one; a field-less struct aborts expansion with
`Expected at least one field`, a non-struct with `Expected a struct`
(a `panic!` in a proc-macro surfaces as a compile-time error). The
returned field type is what the generated impls delegate to. -/
def derive_stack_error : DeriveData → Except String String
  | .structData (f :: _) => .ok f
  | .structData [] => .error "Expected at least one field"
  | .nonStructData => .error "Expected a struct"

/-- The method set delegated by the generated wrapper impls
(`impl/src/lib.rs`, lines 19 to 89): constructor, the stacking methods of
the trait family, the code and URI accessors and builders, and the
`Display` and `Debug` renderings, for an arbitrary inner type `α` that
provides them. -/
structure WrapOps (α : Type) where
  new : String → α
  stack_err : α → String → α
  err_code : α → Option ErrorCode
  with_err_code : α → Option ErrorCode → α
  err_uri : α → Option String
  with_err_uri : α → Option String → α
  stack_err_code : α → String → α
  stack_err_uri : α → String → α
  stack_err_code_uri : α → String → α
  display : α → String
  debug : α → String

/-- A generated wrapper value: a nominal type with exactly one field
holding the inner error (`Self(inner)` in the emitted code). -/
structure Wrapper (α : Type) where
  inner : α

/-- The impls emitted by `derive_stack_error` for the wrapper type: every
method unwraps the single field, delegates to the inner type, and
re-wraps the result; `Display` and `Debug` delegate to the inner
value's formatting (`self.0.fmt(f)`). -/
def wrapOpsOf (ops : WrapOps α) : WrapOps (Wrapper α) where
  new m := ⟨ops.new m⟩
  stack_err w m := ⟨ops.stack_err w.inner m⟩
  err_code w := ops.err_code w.inner
  with_err_code w c := ⟨ops.with_err_code w.inner c⟩
  err_uri w := ops.err_uri w.inner
  with_err_uri w u := ⟨ops.with_err_uri w.inner u⟩
  stack_err_code w m := ⟨ops.stack_err_code w.inner m⟩
  stack_err_uri w m := ⟨ops.stack_err_uri w.inner m⟩
  stack_err_code_uri w m := ⟨ops.stack_err_code_uri w.inner m⟩
  display w := ops.display w.inner
  debug w := ops.debug w.inner

/-- One state-changing operation of the wrapper method set, as data. -/
inductive WrapOp where
  | stackErr (m : String)
  | withErrCode (code : Option ErrorCode)
  | withErrUri (uri : Option String)
  | stackErrCode (m : String)
  | stackErrUri (m : String)
  | stackErrCodeUri (m : String)

/-- Interpret a `WrapOp` with a given wrapper-contract bundle. -/
def WrapOp.apply (ops : WrapOps α) : WrapOp → α → α
  | .stackErr m, e => ops.stack_err e m
  | .withErrCode c, e => ops.with_err_code e c
  | .withErrUri u, e => ops.with_err_uri e u
  | .stackErrCode m, e => ops.stack_err_code e m
  | .stackErrUri m, e => ops.stack_err_uri e m
  | .stackErrCodeUri m, e => ops.stack_err_code_uri e m

/-- Apply a sequence of wrapper-contract operations, oldest first. -/
def WrapOp.applySeq (ops : WrapOps α) (seq : List WrapOp) (e : α) : α :=
  seq.foldl (fun acc op => WrapOp.apply ops op acc) e

/-- Number of lines of a rendered text: one more than the number of
newline characters it contains. -/
def lineCount (s : String) : Nat := s.data.count '\n' + 1

/-- A string with no newline character, thus occupying a single line. -/
def newlineFree (s : String) : Prop := s.data.count '\n' = 0

instance (s : String) : Decidable (newlineFree s) := by
  unfold newlineFree
  infer_instance

/-- Apply a mixed sequence of stacking operations: `none` is a bare
`stack_err`, `some m` is `stack_err_msg m`, oldest first. -/
def StackError.stackSteps (e : StackError) (steps : List (Option String)) :
    StackError :=
  steps.foldl
    (fun acc step =>
      match step with
      | none => acc.stack_err
      | some m => acc.stack_err_msg m)
    e

/-! Helper lemmas about the chain structure. -/

lemma StackError.err_code_stack_err (e : StackError) :
    e.stack_err.err_code = e.err_code := rfl

lemma StackError.err_code_stack_err_msg (e : StackError) (m : String) :
    (e.stack_err_msg m).err_code = e.err_code := rfl

lemma StackError.err_code_stackSteps (steps : List (Option String))
    (e : StackError) : (e.stackSteps steps).err_code = e.err_code := by
  induction steps generalizing e with
  | nil => rfl
  | cons step rest ih =>
    cases step <;> simpa [StackError.stackSteps, List.foldl] using
      ih _

lemma StackError.err_uri_stackSteps (steps : List (Option String))
    (e : StackError) : (e.stackSteps steps).err_uri = e.err_uri := by
  induction steps generalizing e with
  | nil => rfl
  | cons step rest ih =>
    cases step <;> simpa [StackError.stackSteps, List.foldl] using
      ih _

lemma StackError.err_code_stackMsgs (msgs : List String) (e : StackError) :
    (e.stackMsgs msgs).err_code = e.err_code := by
  induction msgs generalizing e with
  | nil => rfl
  | cons m rest ih => simpa [StackError.stackMsgs, List.foldl] using ih _

lemma StackError.err_uri_stackMsgs (msgs : List String) (e : StackError) :
    (e.stackMsgs msgs).err_uri = e.err_uri := by
  induction msgs generalizing e with
  | nil => rfl
  | cons m rest ih => simpa [StackError.stackMsgs, List.foldl] using ih _

lemma StackError.chainNodes_stack_err_msg (e : StackError) (m : String) :
    (e.stack_err_msg m).chainNodes = e.stack_err_msg m :: e.chainNodes := rfl

lemma StackError.chainNodes_ne_nil (e : StackError) : e.chainNodes ≠ [] := by
  cases e with
  | mk m s c u => cases s <;> simp [StackError.chainNodes]

lemma StackError.debugLines_stack_err_msg (e : StackError) (m : String) :
    (e.stack_err_msg m).debugLines = e.debugLines ++ [m] := by
  rw [StackError.debugLines, StackError.chainNodes_stack_err_msg,
    List.reverse_cons, List.map_append]
  rfl

lemma StackError.debugLines_stackMsgs (msgs : List String) (e : StackError) :
    (e.stackMsgs msgs).debugLines = e.debugLines ++ msgs := by
  induction msgs generalizing e with
  | nil => simp [StackError.stackMsgs]
  | cons m rest ih =>
    have step : e.stackMsgs (m :: rest) = (e.stack_err_msg m).stackMsgs rest := rfl
    rw [step, ih, StackError.debugLines_stack_err_msg, List.append_assoc,
      List.singleton_append]

lemma StackError.debugLines_root (m : Option String) (c : Option ErrorCode)
    (u : Option String) :
    (StackError.mk m none c u).debugLines = [(StackError.mk m none c u).displayFmt] := by
  simp [StackError.debugLines, StackError.chainNodes]

lemma StackError.debugLines_ne_nil (e : StackError) : e.debugLines ≠ [] := by
  simp [StackError.debugLines, StackError.chainNodes_ne_nil]

lemma renderLines_count (a : String) (l : List String)
    (h : ∀ s ∈ a :: l, newlineFree s) :
    (renderLines (a :: l)).data.count '\n' = l.length := by
  induction l generalizing a with
  | nil => simpa [renderLines, newlineFree] using h a (by simp)
  | cons b rest ih =>
    have ha : a.data.count '\n' = 0 := h a (by simp)
    have hrest : (renderLines (b :: rest)).data.count '\n' = rest.length :=
      ih b (fun s hs => h s (by simp at hs ⊢; tauto))
    show ((a ++ "\n" ++ renderLines (b :: rest)).data.count '\n') = _
    simp [String.data_append, List.count_append, ha, hrest]

lemma renderLines_snoc (a : String) (l : List String) (m : String) :
    renderLines (a :: l ++ [m]) = renderLines (a :: l) ++ "\n" ++ m := by
  induction l generalizing a with
  | nil => rfl
  | cons b rest ih =>
    show a ++ "\n" ++ renderLines (b :: rest ++ [m]) = _
    rw [ih b,
      show renderLines (a :: b :: rest) = a ++ "\n" ++ renderLines (b :: rest)
        from rfl]
    simp [String.append_assoc]

/-- C1: for every `StackError` `e`, `stack_err_msg e m` returns a node
whose message is `m`, whose source is exactly the consumed value `e`, and
whose code and URI equal those of `e`; consequently stacking any number of
messages onto a root without touching code or URI leaves `err_code` and
`err_uri` equal to the root's. -/
theorem c1_stack_err_msg_propagates :
    (∀ (e : StackError) (m : String),
        (e.stack_err_msg m).message = some m ∧
        (e.stack_err_msg m).source = some e ∧
        (e.stack_err_msg m).err_code = e.err_code ∧
        (e.stack_err_msg m).err_uri = e.err_uri) ∧
    (∀ (e : StackError) (msgs : List String),
        (e.stackMsgs msgs).err_code = e.err_code ∧
        (e.stackMsgs msgs).err_uri = e.err_uri) := by
  refine ⟨fun e m => ⟨rfl, rfl, rfl, rfl⟩, fun e msgs => ⟨?_, ?_⟩⟩
  · exact StackError.err_code_stackMsgs msgs e
  · exact StackError.err_uri_stackMsgs msgs e

/-- C2: stacking `n` messages onto a root node yields a `Debug` rendering
whose line list is the root's display line followed by the `n` messages in
stacking order (root-first), and, when no message contains a newline, the
rendered text has exactly `n + 1` lines; the joining writes a newline only
before every line after the first. -/
theorem c2_debug_root_first_lines (r : StackError) (msgs : List String)
    (hroot : r.source = none) (hr : newlineFree r.displayFmt)
    (hmsgs : ∀ m ∈ msgs, newlineFree m) :
    (r.stackMsgs msgs).debugLines = r.displayFmt :: msgs ∧
    (r.stackMsgs msgs).debugFmt = renderLines (r.displayFmt :: msgs) ∧
    lineCount (r.stackMsgs msgs).debugFmt = msgs.length + 1 := by
  have hlines : (r.stackMsgs msgs).debugLines = r.displayFmt :: msgs := by
    obtain ⟨m, s, c, u⟩ := r
    cases s with
    | some s0 => simp [StackError.source] at hroot
    | none =>
      rw [StackError.debugLines_stackMsgs, StackError.debugLines_root]
      simp
  refine ⟨hlines, ?_, ?_⟩
  · rw [StackError.debugFmt, hlines]
  · rw [StackError.debugFmt, hlines, lineCount,
      renderLines_count r.displayFmt msgs ?_]
    intro s hs
    rcases List.mem_cons.mp hs with h | h
    · exact h ▸ hr
    · exact hmsgs s h

/-- Witness for C2 at a concrete chain: the spec's example scenario, a
root `Base error` with one stacked message `Stacked error`. -/
theorem c2_debug_root_first_lines_witness :
    ((StackError.from_msg "Base error").stackMsgs ["Stacked error"]).debugLines =
      ["Base error", "Stacked error"] ∧
    ((StackError.from_msg "Base error").stackMsgs ["Stacked error"]).debugFmt =
      renderLines ["Base error", "Stacked error"] ∧
    lineCount ((StackError.from_msg "Base error").stackMsgs
      ["Stacked error"]).debugFmt = 2 :=
  c2_debug_root_first_lines (StackError.from_msg "Base error")
    ["Stacked error"] rfl (by decide) (by decide)

/-- C7: clearing the code with `with_no_err_code` yields `err_code = none`
on the result and on every node obtained by further stacking (with or
without messages) until a code is set again, and the `err_code` and
`err_uri` accessors read only the topmost node's fields, never the
chain. -/
theorem c7_cleared_code_stays_cleared :
    (∀ e : StackError, e.with_no_err_code.err_code = none) ∧
    (∀ (e : StackError) (steps : List (Option String)),
        (e.with_no_err_code.stackSteps steps).err_code = none) ∧
    (∀ (m : Option String) (s : Option StackError) (c : Option ErrorCode)
        (u : Option String),
        (StackError.mk m s c u).err_code = c ∧
        (StackError.mk m s c u).err_uri = u) := by
  refine ⟨fun e => rfl, fun e steps => ?_, fun m s c u => ⟨rfl, rfl⟩⟩
  rw [StackError.err_code_stackSteps]
  rfl

/-- C9: the `Display` rendering of a `StackError` is exactly the topmost
node's message (the empty string when it has none) and does not depend on
the cause chain; the `Debug` rendering is what appends the chain: stacking
a message extends it by a newline and that message. -/
theorem c9_display_top_message_only :
    (∀ (m : Option String) (s : Option StackError) (c : Option ErrorCode)
        (u : Option String),
        (StackError.mk m s c u).displayFmt = m.getD "") ∧
    (∀ (m : Option String) (s s2 : Option StackError) (c : Option ErrorCode)
        (u : Option String),
        (StackError.mk m s c u).displayFmt = (StackError.mk m s2 c u).displayFmt) ∧
    (∀ (e : StackError) (m : String), (e.stack_err_msg m).displayFmt = m) ∧
    (∀ (e : StackError) (m : String),
        (e.stack_err_msg m).debugFmt = e.debugFmt ++ "\n" ++ m) := by
  refine ⟨fun m s c u => ?_, fun m s s2 c u => ?_, fun e m => rfl, fun e m => ?_⟩
  · cases m <;> rfl
  · cases m <;> rfl
  · rw [StackError.debugFmt, StackError.debugLines_stack_err_msg]
    obtain ⟨l, rest, hl⟩ : ∃ l rest, e.debugLines = l :: rest := by
      cases h : e.debugLines with
      | nil => exact absurd h (StackError.debugLines_ne_nil e)
      | cons l rest => exact ⟨l, rest, rfl⟩
    rw [hl, renderLines_snoc, StackError.debugFmt, hl]

/-- C10: `with_err_msg` and `with_no_err_msg` replace only the topmost
node's message, leaving source, code and URI unchanged and adding no chain
node, so the chain length is unchanged. -/
theorem c10_with_err_msg_frame :
    ∀ (e : StackError) (m : String),
      (e.with_err_msg m).message = some m ∧
      (e.with_err_msg m).source = e.source ∧
      (e.with_err_msg m).code = e.code ∧
      (e.with_err_msg m).uri = e.uri ∧
      (e.with_err_msg m).chainLen = e.chainLen ∧
      e.with_no_err_msg.message = none ∧
      e.with_no_err_msg.source = e.source ∧
      e.with_no_err_msg.code = e.code ∧
      e.with_no_err_msg.uri = e.uri ∧
      e.with_no_err_msg.chainLen = e.chainLen := by
  intro e m
  obtain ⟨m0, s0, c0, u0⟩ := e
  refine ⟨rfl, rfl, rfl, rfl, ?_, rfl, rfl, rfl, rfl, ?_⟩ <;>
    cases s0 <;>
      simp [StackError.chainLen, StackError.with_err_msg,
        StackError.with_no_err_msg, StackError.chainNodes, StackError.message,
        StackError.source, StackError.code, StackError.uri]

/-- C3: every HTTP status value the table maps round-trips
(`to_http_value (from_http_value v) = v` whenever `from_http_value v` is
defined); every value outside the mapped table yields `none` from
`from_http_value`, and every `ErrorCode` variant outside the HTTP subset
yields `none` from `to_http_value` — no panic, no guessed value. -/
theorem c3_http_roundtrip :
    (∀ (v : Nat) (c : ErrorCode),
        ErrorCode.from_http_value v = some c →
        ErrorCode.to_http_value c = some v) ∧
    (∀ v : Nat, v ∉ mappedHttpValues → ErrorCode.from_http_value v = none) ∧
    (∀ c : ErrorCode, c ∉ httpSubset → ErrorCode.to_http_value c = none) := by
  refine ⟨fun v c h => ?_, fun v hv => ?_, by decide⟩
  · unfold ErrorCode.from_http_value at h
    split at h <;> first
      | exact Option.noConfusion h
      | (cases h; rfl)
  · unfold ErrorCode.from_http_value
    split <;> first
      | rfl
      | exact absurd (by decide) hv

/-- Witness for C3 at concrete values: 404 round-trips through
`HttpNotFound`, the unmapped status 299 maps to nothing, and the non-HTTP
variant `RuntimeInvalidValue` has no HTTP value. -/
theorem c3_http_roundtrip_witness :
    ErrorCode.to_http_value ErrorCode.HttpNotFound = some 404 ∧
    ErrorCode.from_http_value 299 = none ∧
    ErrorCode.to_http_value ErrorCode.RuntimeInvalidValue = none :=
  ⟨c3_http_roundtrip.1 404 ErrorCode.HttpNotFound (by decide),
   c3_http_roundtrip.2.1 299 (by decide),
   c3_http_roundtrip.2.2 ErrorCode.RuntimeInvalidValue (by decide)⟩

/-- C4: the `ErrorStacks` lifting to `Result` leaves every `Ok` value
unchanged under every lifted operation, applies the operation to the error
of an `Err` only, and its accessors read `none` on `Ok` and the error's
value on `Err`; it never turns an `Ok` into an `Err` and never discards
the success value. -/
theorem c4_result_lifting {T E C : Type} (ops : ErrorStacksOps C E) :
    (∀ (op : StacksOp C) (t : T),
        StacksOp.apply (resultOps ops) op (SResult.ok t) = SResult.ok t) ∧
    (∀ (op : StacksOp C) (e : E),
        StacksOp.apply (resultOps ops) op (SResult.err e : SResult T E) =
          SResult.err (StacksOp.apply ops op e)) ∧
    (∀ t : T, (resultOps ops).err_code (SResult.ok t) = none ∧
        (resultOps ops).err_uri (SResult.ok t) = none) ∧
    (∀ e : E,
        (resultOps ops).err_code (SResult.err e : SResult T E) =
          ops.err_code e ∧
        (resultOps ops).err_uri (SResult.err e : SResult T E) =
          ops.err_uri e) := by
  refine ⟨fun op t => ?_, fun op e => ?_, fun t => ⟨rfl, rfl⟩,
    fun e => ⟨rfl, rfl⟩⟩ <;> cases op <;> rfl

/-- C6: a generated wrapper is behaviorally indistinguishable from its
inner value: for every inner operation bundle, every starting message and
every sequence of contract operations, the wrapper built by the generated
constructor renders (`Display` and `Debug`) and reports `err_code` and
`err_uri` exactly as the inner value does. -/
theorem c6_wrapper_equivalence {α : Type} (ops : WrapOps α) (m : String)
    (seq : List WrapOp) :
    (wrapOpsOf ops).display
        (WrapOp.applySeq (wrapOpsOf ops) seq ((wrapOpsOf ops).new m)) =
      ops.display (WrapOp.applySeq ops seq (ops.new m)) ∧
    (wrapOpsOf ops).debug
        (WrapOp.applySeq (wrapOpsOf ops) seq ((wrapOpsOf ops).new m)) =
      ops.debug (WrapOp.applySeq ops seq (ops.new m)) ∧
    (wrapOpsOf ops).err_code
        (WrapOp.applySeq (wrapOpsOf ops) seq ((wrapOpsOf ops).new m)) =
      ops.err_code (WrapOp.applySeq ops seq (ops.new m)) ∧
    (wrapOpsOf ops).err_uri
        (WrapOp.applySeq (wrapOpsOf ops) seq ((wrapOpsOf ops).new m)) =
      ops.err_uri (WrapOp.applySeq ops seq (ops.new m)) := by
  have key : ∀ (seq : List WrapOp) (t : α),
      WrapOp.applySeq (wrapOpsOf ops) seq ⟨t⟩ = ⟨WrapOp.applySeq ops seq t⟩ := by
    intro seq
    induction seq with
    | nil => intro t; rfl
    | cons op rest ih =>
      intro t
      cases op <;> exact ih _
  rw [show (wrapOpsOf ops).new m = ⟨ops.new m⟩ from rfl, key]
  exact ⟨rfl, rfl, rfl, rfl⟩

/-- C8: converting a platform I/O error yields a single root node whose
message is the error's text, whose URI is empty, and whose code is exactly
the image of the error's kind under the code table (`none` for unmapped
kinds, never a default); in particular a `NotFound` error yields
`some IoNotFound` and an unmapped kind such as `NotADirectory` yields
`none`. -/
theorem c8_from_io_error (k : IoErrorKind) (m : String) :
    (stackErrorFromIo ⟨k, m⟩).source = none ∧
    (stackErrorFromIo ⟨k, m⟩).message = some m ∧
    (stackErrorFromIo ⟨k, m⟩).uri = none ∧
    (stackErrorFromIo ⟨k, m⟩).err_code = ErrorCode.from_io_kind k ∧
    (stackErrorFromIo ⟨IoErrorKind.NotFound, m⟩).err_code =
      some ErrorCode.IoNotFound ∧
    (stackErrorFromIo ⟨IoErrorKind.NotADirectory, m⟩).err_code = none := by
  refine ⟨?_, ?_, ?_, ?_, rfl, rfl⟩ <;>
    · rw [show stackErrorFromIo ⟨k, m⟩ =
          StackError.mk (some m) none (ErrorCode.from_io_kind k) none from ?_]
      · rfl
      · show (match ErrorCode.from_io_kind k with
            | some code => (StackError.from_msg m).with_err_code code
            | none => StackError.from_msg m) =
          StackError.mk (some m) none (ErrorCode.from_io_kind k) none
        cases ErrorCode.from_io_kind k <;> rfl

/-- C5, counterexample: the claim that generation fails whenever the
declared type does not have exactly one field is false — the generator
inspects only the first field, so a two-field struct is accepted. -/
theorem c5_exactly_one_field_counterexample :
    ¬ (∀ fields : List String, fields.length ≠ 1 →
        ∃ msg, derive_stack_error (DeriveData.structData fields) =
          Except.error msg) := by
  intro h
  obtain ⟨msg, hmsg⟩ := h ["StackError", "String"] (by decide)
  simp [derive_stack_error] at hmsg

/-- C5, amended: generation of the wrapper impls fails (with a descriptive
compile-time error, not a runtime one) exactly when the declared struct
has zero fields — the message is `Expected at least one field` — while any
struct declaration with at least one field succeeds, the generator
delegating to the first field's type; a non-struct item also fails at
generation time. -/
theorem c5_zero_fields_fail :
    (∀ fields : List String,
        (∃ msg, derive_stack_error (DeriveData.structData fields) =
          Except.error msg) ↔ fields = []) ∧
    derive_stack_error (DeriveData.structData []) =
      Except.error "Expected at least one field" ∧
    (∀ (f : String) (rest : List String),
        derive_stack_error (DeriveData.structData (f :: rest)) = Except.ok f) ∧
    derive_stack_error DeriveData.nonStructData =
      Except.error "Expected a struct" := by
  refine ⟨fun fields => ?_, rfl, fun f rest => rfl, rfl⟩
  cases fields with
  | nil => simp [derive_stack_error]
  | cons f rest => simp [derive_stack_error]

/-- Witness for C1 at a concrete chain: a coded root with two stacked
messages keeps its code and URI. -/
theorem c1_stack_err_msg_propagates_witness :
    (((StackError.from_msg "Base error").with_err_code
        ErrorCode.RuntimeInvalidValue).stackMsgs ["first", "second"]).err_code =
      ((StackError.from_msg "Base error").with_err_code
        ErrorCode.RuntimeInvalidValue).err_code ∧
    (((StackError.from_msg "Base error").with_err_code
        ErrorCode.RuntimeInvalidValue).stackMsgs ["first", "second"]).err_uri =
      ((StackError.from_msg "Base error").with_err_code
        ErrorCode.RuntimeInvalidValue).err_uri :=
  c1_stack_err_msg_propagates.2
    ((StackError.from_msg "Base error").with_err_code
      ErrorCode.RuntimeInvalidValue) ["first", "second"]

/-- Witness for C4 at the concrete `StackError` instance: stacking on an
`Ok` result is the identity and stacking on an `Err` stacks the error. -/
theorem c4_result_lifting_witness :
    StacksOp.apply (resultOps stackErrorOps) (StacksOp.stackErrMsg "context")
        (SResult.ok 7 : SResult Nat StackError) = SResult.ok 7 ∧
    StacksOp.apply (resultOps stackErrorOps) (StacksOp.stackErrMsg "context")
        (SResult.err (StackError.from_msg "Base error") :
          SResult Nat StackError) =
      SResult.err ((StackError.from_msg "Base error").stack_err_msg "context") :=
  ⟨(c4_result_lifting stackErrorOps).1 (StacksOp.stackErrMsg "context") 7,
   (c4_result_lifting stackErrorOps).2.1 (StacksOp.stackErrMsg "context")
     (StackError.from_msg "Base error")⟩

/-- A concrete instantiation of the wrapper method set over `StackError`,
used to witness the wrapper-equivalence theorem: old-style optional
setters are bridged to the with/clear pairs, the stack variants all stack
a message, and rendering uses the `Display` and `Debug` embeddings. -/
def stackErrorWrapOps : WrapOps StackError where
  new := StackError.from_msg
  stack_err := StackError.stack_err_msg
  err_code := StackError.err_code
  with_err_code e oc :=
    match oc with
    | some c => e.with_err_code c
    | none => e.with_no_err_code
  err_uri := StackError.err_uri
  with_err_uri e ou :=
    match ou with
    | some u => e.with_err_uri u
    | none => e.with_no_err_uri
  stack_err_code := StackError.stack_err_msg
  stack_err_uri := StackError.stack_err_msg
  stack_err_code_uri := StackError.stack_err_msg
  display := StackError.displayFmt
  debug := StackError.debugFmt

/-- Witness for C6 at a concrete inner type, message and operation
sequence: the wrapper around a `StackError` renders like the bare
`StackError` after a stack and a code change. -/
theorem c6_wrapper_equivalence_witness :
    (wrapOpsOf stackErrorWrapOps).debug
        (WrapOp.applySeq (wrapOpsOf stackErrorWrapOps)
          [WrapOp.stackErr "Stacked error",
           WrapOp.withErrCode (some ErrorCode.RuntimeInvalidValue)]
          ((wrapOpsOf stackErrorWrapOps).new "Base error")) =
      stackErrorWrapOps.debug
        (WrapOp.applySeq stackErrorWrapOps
          [WrapOp.stackErr "Stacked error",
           WrapOp.withErrCode (some ErrorCode.RuntimeInvalidValue)]
          (stackErrorWrapOps.new "Base error")) ∧
    (wrapOpsOf stackErrorWrapOps).err_code
        (WrapOp.applySeq (wrapOpsOf stackErrorWrapOps)
          [WrapOp.stackErr "Stacked error",
           WrapOp.withErrCode (some ErrorCode.RuntimeInvalidValue)]
          ((wrapOpsOf stackErrorWrapOps).new "Base error")) =
      stackErrorWrapOps.err_code
        (WrapOp.applySeq stackErrorWrapOps
          [WrapOp.stackErr "Stacked error",
           WrapOp.withErrCode (some ErrorCode.RuntimeInvalidValue)]
          (stackErrorWrapOps.new "Base error")) :=
  ⟨(c6_wrapper_equivalence stackErrorWrapOps "Base error"
      [WrapOp.stackErr "Stacked error",
       WrapOp.withErrCode (some ErrorCode.RuntimeInvalidValue)]).2.1,
   (c6_wrapper_equivalence stackErrorWrapOps "Base error"
      [WrapOp.stackErr "Stacked error",
       WrapOp.withErrCode (some ErrorCode.RuntimeInvalidValue)]).2.2.1⟩

/-- Witness for C7 at a concrete chain: after clearing the code of a coded
root, a bare stack and a stacked message still report no code. -/
theorem c7_cleared_code_stays_cleared_witness :
    ((((StackError.from_msg "Base error").with_err_code
        ErrorCode.RuntimeInvalidValue).with_no_err_code).stackSteps
      [some "Stacked error", none]).err_code = none :=
  c7_cleared_code_stays_cleared.2.1
    ((StackError.from_msg "Base error").with_err_code
      ErrorCode.RuntimeInvalidValue) [some "Stacked error", none]

/-- Witness for C8 at a concrete error: an I/O `NotFound` failure converts
to a root chain with code `IoNotFound` and the failure's text. -/
theorem c8_from_io_error_witness :
    (stackErrorFromIo ⟨IoErrorKind.NotFound, "file not found"⟩).err_code =
      some ErrorCode.IoNotFound ∧
    (stackErrorFromIo ⟨IoErrorKind.NotFound, "file not found"⟩).message =
      some "file not found" :=
  ⟨(c8_from_io_error IoErrorKind.NotFound "file not found").2.2.2.2.1,
   (c8_from_io_error IoErrorKind.NotFound "file not found").2.1⟩

/-- Witness for C9 at a concrete chain: stacking a message extends the
`Debug` text by one line while `Display` shows only the new message. -/
theorem c9_display_top_message_only_witness :
    ((StackError.from_msg "Base error").stack_err_msg "Stacked error").displayFmt =
      "Stacked error" ∧
    ((StackError.from_msg "Base error").stack_err_msg "Stacked error").debugFmt =
      (StackError.from_msg "Base error").debugFmt ++ "\n" ++ "Stacked error" :=
  ⟨c9_display_top_message_only.2.2.1 (StackError.from_msg "Base error")
     "Stacked error",
   c9_display_top_message_only.2.2.2 (StackError.from_msg "Base error")
     "Stacked error"⟩

/-- Witness for C10 at a concrete chain: replacing the message of a
two-node chain keeps its source, code, URI and length. -/
theorem c10_with_err_msg_frame_witness :
    (((StackError.from_msg "Base error").stack_err_msg
        "Stacked error").with_err_msg "Replaced").message = some "Replaced" ∧
    (((StackError.from_msg "Base error").stack_err_msg
        "Stacked error").with_err_msg "Replaced").source =
      ((StackError.from_msg "Base error").stack_err_msg "Stacked error").source ∧
    (((StackError.from_msg "Base error").stack_err_msg
        "Stacked error").with_err_msg "Replaced").chainLen =
      ((StackError.from_msg "Base error").stack_err_msg
        "Stacked error").chainLen :=
  ⟨(c10_with_err_msg_frame
      ((StackError.from_msg "Base error").stack_err_msg "Stacked error")
      "Replaced").1,
   (c10_with_err_msg_frame
      ((StackError.from_msg "Base error").stack_err_msg "Stacked error")
      "Replaced").2.1,
   (c10_with_err_msg_frame
      ((StackError.from_msg "Base error").stack_err_msg "Stacked error")
      "Replaced").2.2.2.2.1⟩

/-- Witness for the amended C5 at concrete declarations: a one-field
struct generates (delegating to that field), a field-less struct aborts
with the `Expected at least one field` message. -/
theorem c5_zero_fields_fail_witness :
    derive_stack_error (DeriveData.structData ["StackError"]) =
      Except.ok "StackError" ∧
    derive_stack_error (DeriveData.structData []) =
      Except.error "Expected at least one field" :=
  ⟨c5_zero_fields_fail.2.2.1 "StackError" [], c5_zero_fields_fail.2.1⟩

end Stackerror
